import Mathlib

/-!
Verification development for the MeetingsAndDecks webhook pipeline
(`simple.py`): a Flask webhook handler that fetches a Webex message,
extracts a scheduling intent via an LLM, parses the intent as JSON, creates
a Webex meeting and publishes a Google Calendar event.

The embedding models Python values that flow through the pipeline as
`JsonVal` (JSON data), Python exceptions as `PyErr`, the external world
(HTTP responses, LLM outcome, credential file) as a `World` record of
oracles, and outbound network calls as a trace of `Call` values.  Numbers
are modelled as exact rationals (Python float rounding is not modelled).
-/

/-- A JSON value as produced by the Python `json` module.  `nanV` and
`infV` model the non-standard `NaN` / `Infinity` / `-Infinity` literals
that Python `json.loads` accepts by default (they become floats, which
`JsonVal.num : Rat` cannot represent). -/
inductive JsonVal where
  | null : JsonVal
  | bool : Bool → JsonVal
  | num : Rat → JsonVal
  | str : String → JsonVal
  | arr : List JsonVal → JsonVal
  | obj : List (String × JsonVal) → JsonVal
  | nanV : JsonVal
  | infV : Bool → JsonVal
deriving Inhabited

/-- Python exceptions that the pipeline can raise or catch. -/
inductive PyErr where
  | typeError : PyErr
  | attributeError : PyErr
  | keyError : PyErr
  | indexError : PyErr
  | jsonDecodeError : PyErr
  | httpError : PyErr
deriving Repr, DecidableEq

/-- Lookup in a JSON object, last binding wins (Python dicts built from a
JSON text keep the last duplicate key). -/
def lookupLast (kvs : List (String × JsonVal)) (k : String) : Option JsonVal :=
  match kvs with
  | [] => none
  | (k1, v1) :: rest =>
    match lookupLast rest k with
    | some v => some v
    | none => if k1 = k then some v1 else none

/-- Python truthiness (`if x:`) of a JSON value.  `None`, `False`, zero,
and empty strings / lists / dicts are falsy; everything else is truthy. -/
def pyTruthy : JsonVal → Bool
  | JsonVal.null => false
  | JsonVal.bool b => b
  | JsonVal.num q => if q = 0 then false else true
  | JsonVal.str s => !s.isEmpty
  | JsonVal.arr xs => !xs.isEmpty
  | JsonVal.obj kvs => !kvs.isEmpty
  | JsonVal.nanV => true
  | JsonVal.infV _ => true

/-- Python `d.get(k)` on a value: returns the binding (or `none`) on a
dict, raises `AttributeError` on anything else. -/
def pyGet (v : JsonVal) (k : String) : Except PyErr (Option JsonVal) :=
  match v with
  | JsonVal.obj kvs => Except.ok (lookupLast kvs k)
  | _ => Except.error PyErr.attributeError

/-- Python iteration (`for x in v`): lists yield elements, strings yield
one-character strings, dicts yield keys, everything else raises
`TypeError`. -/
def pyIter : JsonVal → Except PyErr (List JsonVal)
  | JsonVal.arr xs => Except.ok xs
  | JsonVal.str s => Except.ok (s.data.map (fun c => JsonVal.str (String.mk [c])))
  | JsonVal.obj kvs => Except.ok (kvs.map (fun p => JsonVal.str p.1))
  | _ => Except.error PyErr.typeError

/-- Python `v[0]`: first element of a list (`IndexError` when empty),
one-character string for a string, `KeyError` for a dict (JSON object keys
are strings, never the integer 0), `TypeError` otherwise. -/
def pyIndex0 : JsonVal → Except PyErr JsonVal
  | JsonVal.arr (x :: _) => Except.ok x
  | JsonVal.arr [] => Except.error PyErr.indexError
  | JsonVal.str s =>
    match s.data with
    | c :: _ => Except.ok (JsonVal.str (String.mk [c]))
    | [] => Except.error PyErr.indexError
  | JsonVal.obj _ => Except.error PyErr.keyError
  | _ => Except.error PyErr.typeError

/-! ### `json.loads`: a faithful embedding of the Python JSON decoder -/

/-- Skip JSON whitespace (space, tab, newline, carriage return). -/
def skipWs : List Char → List Char
  | c :: cs =>
    if c = ' ' ∨ c = '\t' ∨ c = '\n' ∨ c = '\r' then skipWs cs else c :: cs
  | [] => []

/-- Numeric value of a hexadecimal digit, if any. -/
def hexVal? (c : Char) : Option Nat :=
  if '0' ≤ c ∧ c ≤ '9' then some (c.toNat - '0'.toNat)
  else if 'a' ≤ c ∧ c ≤ 'f' then some (c.toNat - 'a'.toNat + 10)
  else if 'A' ≤ c ∧ c ≤ 'F' then some (c.toNat - 'A'.toNat + 10)
  else none

/-- Body of a JSON string literal after the opening quote: standard
escapes, `\uXXXX` (decoded via `Char.ofNat`), raw control characters
rejected (Python strict mode). Returns the string and the rest of the
input after the closing quote. -/
def parseStringAux (acc : List Char) : List Char → Option (String × List Char)
  | '\"' :: rest => some (String.mk acc.reverse, rest)
  | '\\' :: e :: rest =>
    if e = '\"' then parseStringAux ('\"' :: acc) rest
    else if e = '\\' then parseStringAux ('\\' :: acc) rest
    else if e = '/' then parseStringAux ('/' :: acc) rest
    else if e = 'b' then parseStringAux (Char.ofNat 8 :: acc) rest
    else if e = 'f' then parseStringAux (Char.ofNat 12 :: acc) rest
    else if e = 'n' then parseStringAux ('\n' :: acc) rest
    else if e = 'r' then parseStringAux ('\r' :: acc) rest
    else if e = 't' then parseStringAux ('\t' :: acc) rest
    else if e = 'u' then
      match rest with
      | h1 :: h2 :: h3 :: h4 :: rest2 =>
        match hexVal? h1, hexVal? h2, hexVal? h3, hexVal? h4 with
        | some a, some b, some c, some d =>
          parseStringAux (Char.ofNat (((a * 16 + b) * 16 + c) * 16 + d) :: acc) rest2
        | _, _, _, _ => none
      | _ => none
    else none
  | c :: rest =>
    if c.toNat < 32 then none else parseStringAux (c :: acc) rest
  | [] => none

/-- Take a maximal run of decimal digits. -/
def takeDigits : List Char → (List Char × List Char)
  | c :: cs =>
    if c.isDigit then
      let p := takeDigits cs
      (c :: p.1, p.2)
    else ([], c :: cs)
  | [] => ([], [])

/-- Decimal value of a digit list. -/
def digitsToNat (ds : List Char) : Nat :=
  ds.foldl (fun n c => n * 10 + (c.toNat - '0'.toNat)) 0

/-- Integer part of a JSON number: `0`, or a nonzero digit followed by a
digit run (leading zeros rejected, as in the Python grammar). -/
def parseIntPart : List Char → Option (Nat × List Char)
  | '0' :: rest => some (0, rest)
  | c :: rest =>
    if c.isDigit then
      let p := takeDigits (c :: rest)
      some (digitsToNat p.1, p.2)
    else none
  | [] => none

/-- Fractional part `.digits`, consumed only when at least one digit
follows the dot (as in the Python grammar regex). -/
def parseFrac : List Char → (List Char × List Char)
  | '.' :: c :: rest =>
    if c.isDigit then takeDigits (c :: rest)
    else ([], '.' :: c :: rest)
  | cs => ([], cs)

/-- Exponent part `[eE][+-]?digits`, consumed only when well formed. -/
def parseExp : List Char → (Int × List Char)
  | c :: rest =>
    if c = 'e' ∨ c = 'E' then
      match rest with
      | '+' :: d :: r2 =>
        if d.isDigit then
          let p := takeDigits (d :: r2)
          ((digitsToNat p.1 : Int), p.2)
        else (0, c :: rest)
      | '-' :: d :: r2 =>
        if d.isDigit then
          let p := takeDigits (d :: r2)
          (-(digitsToNat p.1 : Int), p.2)
        else (0, c :: rest)
      | d :: r2 =>
        if d.isDigit then
          let p := takeDigits (d :: r2)
          ((digitsToNat p.1 : Int), p.2)
        else (0, c :: rest)
      | [] => (0, c :: rest)
    else (0, c :: rest)
  | [] => (0, [])

/-- `10 ^ e` as a rational, for integer `e`. -/
def pow10 : Int → Rat
  | Int.ofNat n => (10 : Rat) ^ n
  | Int.negSucc n => 1 / ((10 : Rat) ^ (n + 1))

/-- A JSON number, as an exact rational. -/
def parseNumber (cs : List Char) : Option (JsonVal × List Char) :=
  let sign : Bool × List Char :=
    match cs with
    | '-' :: r => (true, r)
    | _ => (false, cs)
  match parseIntPart sign.2 with
  | none => none
  | some (i, cs2) =>
    let fr := parseFrac cs2
    let ex := parseExp fr.2
    let mantissa : Nat := i * 10 ^ fr.1.length + digitsToNat fr.1
    let signed : Int := if sign.1 then -(mantissa : Int) else (mantissa : Int)
    let q : Rat := (signed : Rat) * pow10 (ex.1 - (fr.1.length : Int))
    some (JsonVal.num q, ex.2)

mutual

/-- One JSON value, fuelled recursion (fuel decreases on every nested
parse; `input length + 1` suffices). -/
def parseVal : Nat → List Char → Option (JsonVal × List Char)
  | 0, _ => none
  | fuel + 1, cs =>
    match skipWs cs with
    | 'n' :: 'u' :: 'l' :: 'l' :: rest => some (JsonVal.null, rest)
    | 't' :: 'r' :: 'u' :: 'e' :: rest => some (JsonVal.bool true, rest)
    | 'f' :: 'a' :: 'l' :: 's' :: 'e' :: rest => some (JsonVal.bool false, rest)
    | 'N' :: 'a' :: 'N' :: rest => some (JsonVal.nanV, rest)
    | 'I' :: 'n' :: 'f' :: 'i' :: 'n' :: 'i' :: 't' :: 'y' :: rest =>
      some (JsonVal.infV false, rest)
    | '-' :: 'I' :: 'n' :: 'f' :: 'i' :: 'n' :: 'i' :: 't' :: 'y' :: rest =>
      some (JsonVal.infV true, rest)
    | '\"' :: rest =>
      match parseStringAux [] rest with
      | some (s, rest2) => some (JsonVal.str s, rest2)
      | none => none
    | '[' :: rest =>
      match skipWs rest with
      | ']' :: rest2 => some (JsonVal.arr [], rest2)
      | cs2 => parseElems fuel cs2 []
    | '\x7b' :: rest =>
      match skipWs rest with
      | '\x7d' :: rest2 => some (JsonVal.obj [], rest2)
      | cs2 => parseMembers fuel cs2 []
    | cs1 => parseNumber cs1

/-- Elements of a JSON array after the opening bracket (non-empty case). -/
def parseElems : Nat → List Char → List JsonVal → Option (JsonVal × List Char)
  | 0, _, _ => none
  | fuel + 1, cs, acc =>
    match parseVal fuel cs with
    | none => none
    | some (v, rest) =>
      match skipWs rest with
      | ',' :: rest2 => parseElems fuel rest2 (v :: acc)
      | ']' :: rest2 => some (JsonVal.arr (v :: acc).reverse, rest2)
      | _ => none

/-- Members of a JSON object after the opening brace (non-empty case). -/
def parseMembers : Nat → List Char → List (String × JsonVal) →
    Option (JsonVal × List Char)
  | 0, _, _ => none
  | fuel + 1, cs, acc =>
    match skipWs cs with
    | '\"' :: rest =>
      match parseStringAux [] rest with
      | none => none
      | some (k, rest1) =>
        match skipWs rest1 with
        | ':' :: rest2 =>
          match parseVal fuel rest2 with
          | none => none
          | some (v, rest3) =>
            match skipWs rest3 with
            | ',' :: rest4 => parseMembers fuel rest4 ((k, v) :: acc)
            | '\x7d' :: rest4 => some (JsonVal.obj ((k, v) :: acc).reverse, rest4)
            | _ => none
        | _ => none
    | _ => none

end

/-- Embedding of Python `json.loads`: parse one JSON value and require
only whitespace after it; `none` models `json.JSONDecodeError`. -/
def json_loads (s : String) : Option JsonVal :=
  match parseVal (s.data.length + 1) s.data with
  | some (v, rest) => if skipWs rest = [] then some v else none
  | none => none

/-! ### The external world and the outbound-call trace -/

/-- Outcome of the OpenAI chat-completion call made by
`process_natural_language_input`: the assistant content string, or an
exception message caught by its `try/except`. -/
inductive LLMOutcome where
  | success : String → LLMOutcome
  | failure : String → LLMOutcome
deriving Repr, DecidableEq

/-- Oracles for the external collaborators, fixed for the handling of one
webhook call: the Webex message-get response, the LLM outcome, the Webex
meetings-create response, whether the Google OAuth token file
`meetndecks_tokens.json` exists, and the calendar insert's response status
and body.  The Google API client raises `HttpError` from `execute()` when
the response status is 300 or above, so the insert status is part of the
observable world. -/
structure World where
  fetchStatus : Nat
  fetchText : Option String
  llm : LLMOutcome
  meetingStatus : Nat
  meetingBody : List (String × JsonVal)
  tokensFileExists : Bool
  calendarInsertStatus : Nat
  calendarEventBody : List (String × JsonVal)

/-- The JSON payload sent to `POST https://webexapis.com/v1/meetings`.
`endTime` embeds the `"end"` key of the Python dict. -/
structure MeetingPayload where
  title : String
  start : String
  endTime : String
  enabledAutoRecordMeeting : Bool
  allowAnyUserToBeCoHost : Bool

/-- The Google Calendar event body built by `create_google_calendar_event`.
`attendees` holds the `[..., ("email", e), ...]` objects in order;
`location` is the raw Python value of `webex_link` (which may be `None`). -/
structure EventBody where
  summary : String
  location : Option JsonVal
  startDateTime : String
  startTimeZone : String
  endDateTime : String
  endTimeZone : String
  attendees : List JsonVal
  organizerEmail : String

/-- One outbound network call, with the request data the pipeline sent. -/
inductive Call where
  | fetchMessage : String → Call
  | llmCall : String → Call
  | createMeeting : MeetingPayload → Call
  | calendarInsert : String → EventBody → Bool → Call

/-- Is this call the Webex meeting-create request? -/
def Call.isCreateMeeting : Call → Bool
  | Call.createMeeting _ => true
  | _ => false

/-- Is this call the Google Calendar event-insert request? -/
def Call.isCalendarInsert : Call → Bool
  | Call.calendarInsert _ _ _ => true
  | _ => false

/-- An inbound webhook payload of the InboundEvent shape: the fields the
handler reads via `webhook_data.get("resource")`, `.get("event")`,
`data.get("id")` and `data.get("roomId")`, each possibly absent. -/
structure InboundEvent where
  resource : Option String
  event : Option String
  dataId : Option String
  dataRoomId : Option String

/-! ### The pipeline functions, translated from `simple.py` -/

/-- Embeds `fetch_webex_message_text`: one GET to
`/v1/messages/(message_id)`; on a 200 response, `message_data.get("text", "")`
(the text field of the JSON body, defaulted to the empty string), else the
empty string.  Always returns a string; the non-200 branch only prints. -/
def fetch_webex_message_text (w : World) (message_id : String) :
    String × List Call :=
  ((if w.fetchStatus = 200 then w.fetchText.getD "" else ""),
   [Call.fetchMessage message_id])

/-- Result value of `process_natural_language_input`: the assistant
message (a Python `str`) on success, or the dict `("error", str(e))` built
in the `except` branch.  The two shapes are distinct constructors, mirroring
the distinct Python types (str vs dict). -/
inductive OpenAIResult where
  | assistantMessage : String → OpenAIResult
  | errorDict : String → OpenAIResult
deriving Repr, DecidableEq

/-- Embeds `process_natural_language_input`: one chat-completion call; the
`try/except` catches every exception, so the function itself never raises. -/
def process_natural_language_input (w : World) (user_text : String) :
    OpenAIResult × List Call :=
  match w.llm with
  | LLMOutcome.success content => (OpenAIResult.assistantMessage content, [Call.llmCall user_text])
  | LLMOutcome.failure msg => (OpenAIResult.errorDict msg, [Call.llmCall user_text])

/-- Embeds `json.loads(openai_response)` as called in `webhook`: on a
string, JSON decoding (`jsonDecodeError` on failure, which the caller
catches); on the error dict, `json.loads` raises `TypeError`, which the
caller's `except json.JSONDecodeError` does NOT catch. -/
def json_loads_py : OpenAIResult → Except PyErr JsonVal
  | OpenAIResult.assistantMessage s =>
    match json_loads s with
    | some v => Except.ok v
    | none => Except.error PyErr.jsonDecodeError
  | OpenAIResult.errorDict _ => Except.error PyErr.typeError

/-- Embeds `create_webex_meeting`: one POST to `/v1/meetings` with a fully
hardcoded payload (`booking_data` is never consumed).  On status 200 the
join link is `resp.json()["items"][0].get("webLink")` when the body has an
`items` key, else `resp.json().get("webLink")`; any other status returns
`None`.  Indexing and `.get` can raise on ill-shaped bodies, hence the
`Except`. -/
def create_webex_meeting (w : World) (booking_data : JsonVal) :
    Except PyErr (Option JsonVal) × List Call :=
  let payload : MeetingPayload :=
    { title := "Scheduled via Webex + GPT"
      start := "2025-02-01T17:00:00Z"
      endTime := "2025-02-01T17:30:00Z"
      enabledAutoRecordMeeting := false
      allowAnyUserToBeCoHost := false }
  let result : Except PyErr (Option JsonVal) :=
    if w.meetingStatus = 200 then
      match lookupLast w.meetingBody "items" with
      | some items =>
        match pyIndex0 items with
        | Except.error e => Except.error e
        | Except.ok meeting_info =>
          match pyGet meeting_info "webLink" with
          | Except.error e => Except.error e
          | Except.ok link => Except.ok link
      | none => Except.ok (lookupLast w.meetingBody "webLink")
    else
      Except.ok none
  (result, [Call.createMeeting payload])

/-- Embeds `create_google_calendar_event`.  If `meetndecks_tokens.json`
does not exist: print and return, no call, no exception.  Otherwise read
`booking_data.get("date")` and `.get("time")` (unused placeholders, but
they raise `AttributeError` on a non-dict), build the event body with
attendees `[("email", e)]` for each `e` in `booking_data.get("attendees", [])`
and `location := webex_link` as-is, then insert with
`sendNotifications=True`.  The insert request is sent either way;
`execute()` raises `HttpError` (uncaught here) when the response status is
300 or above, and on success the returned event is only printed. -/
def create_google_calendar_event (w : World) (host_email : String)
    (booking_data : JsonVal) (webex_link : Option JsonVal) :
    Except PyErr Unit × List Call :=
  if w.tokensFileExists = false then
    (Except.ok (), [])
  else
    match pyGet booking_data "date" with
    | Except.error e => (Except.error e, [])
    | Except.ok _user_date =>
      match pyGet booking_data "time" with
      | Except.error e => (Except.error e, [])
      | Except.ok _user_time =>
        match pyGet booking_data "attendees" with
        | Except.error e => (Except.error e, [])
        | Except.ok att0 =>
          match pyIter (att0.getD (JsonVal.arr [])) with
          | Except.error e => (Except.error e, [])
          | Except.ok emails =>
            let event_body : EventBody :=
              { summary := "Meeting from GPT + Webex"
                location := webex_link
                startDateTime := "2025-02-01T17:00:00-05:00"
                startTimeZone := "Europe/London"
                endDateTime := "2025-02-01T17:30:00-05:00"
                endTimeZone := "Europe/London"
                attendees := emails.map (fun e => JsonVal.obj [("email", e)])
                organizerEmail := host_email }
            let result : Except PyErr Unit :=
              if 300 ≤ w.calendarInsertStatus then
                Except.error PyErr.httpError
              else
                let _htmlLink := lookupLast w.calendarEventBody "htmlLink"
                Except.ok ()
            (result, [Call.calendarInsert host_email event_body true])

/-- The acknowledgement `jsonify(("status", "ok")), 200`. -/
def ackResponse : JsonVal × Nat := (JsonVal.obj [("status", JsonVal.str "ok")], 200)

/-- Embeds the `webhook` handler.  `Except.error` models an exception
escaping the handler (Flask then answers HTTP 500, not the
acknowledgement); the `List Call` is the trace of outbound calls made
before returning or raising. -/
def webhook (w : World) (e : InboundEvent) :
    Except PyErr (JsonVal × Nat) × List Call :=
  if e.resource = some "messages" ∧ e.event = some "created" then
    match e.dataId with
    | some message_id =>
      let _room_id := e.dataRoomId
      if message_id ≠ "" then
        let fr := fetch_webex_message_text w message_id
        let message_text := fr.1
        let pr := process_natural_language_input w message_text
        let openai_response := pr.1
        let calls12 := fr.2 ++ pr.2
        match json_loads_py openai_response with
        | Except.error PyErr.jsonDecodeError =>
          (Except.ok ackResponse, calls12)
        | Except.error e2 => (Except.error e2, calls12)
        | Except.ok booking_data =>
          if pyTruthy booking_data then
            let mr := create_webex_meeting w booking_data
            match mr.1 with
            | Except.error e2 => (Except.error e2, calls12 ++ mr.2)
            | Except.ok webex_meeting_url =>
              let cr := create_google_calendar_event w
                "archit.sachdeva007@gmail.com" booking_data webex_meeting_url
              match cr.1 with
              | Except.error e2 => (Except.error e2, calls12 ++ mr.2 ++ cr.2)
              | Except.ok _ => (Except.ok ackResponse, calls12 ++ mr.2 ++ cr.2)
          else
            (Except.ok ackResponse, calls12)
      else
        (Except.ok ackResponse, [])
    | none => (Except.ok ackResponse, [])
  else
    (Except.ok ackResponse, [])

/-! ### Derived definitions used by the claim statements -/

/-- Locations recorded by calendar event-insert calls in a trace. -/
def insertedLocations (calls : List Call) : List (Option JsonVal) :=
  calls.filterMap (fun cl =>
    match cl with
    | Call.calendarInsert _ b _ => some b.location
    | _ => none)

/-- A parsed booking value that `create_google_calendar_event` can consume
without raising: a dict, whose `attendees` entry (defaulted to the empty
list) is iterable (list, string, or dict). -/
def jsonShapeOkForPublisher (v : JsonVal) : Bool :=
  match v with
  | JsonVal.obj kvs =>
    match (lookupLast kvs "attendees").getD (JsonVal.arr []) with
    | JsonVal.arr _ => true
    | JsonVal.str _ => true
    | JsonVal.obj _ => true
    | _ => false
  | _ => false

/-- A meetings-API response that `create_webex_meeting` can consume
without raising: any non-200 status, or a 200 body whose `items` entry is
absent or a non-empty list starting with a dict. -/
def meetingRespShapeOk (w : World) : Bool :=
  if w.meetingStatus = 200 then
    match lookupLast w.meetingBody "items" with
    | none => true
    | some (JsonVal.arr (JsonVal.obj _ :: _)) => true
    | some _ => false
  else true

/-- A calendar insert that `execute()` does not turn into an `HttpError`:
response status below 300. -/
def calendarInsertOk (w : World) : Bool :=
  decide (w.calendarInsertStatus < 300)

/-- Sufficient condition under which the handler reaches no uncaught
exception: the LLM call must succeed (a failure becomes the error dict and
`json.loads` then raises `TypeError`), and its output must fail to parse,
or parse to a falsy value, or parse to a publisher-consumable dict with a
well-shaped meetings response and — unless the token file is absent, in
which case the publisher stops before any request — a calendar insert
whose response status does not make `execute()` raise. -/
def ackSafe (w : World) : Bool :=
  match w.llm with
  | LLMOutcome.failure _ => false
  | LLMOutcome.success content =>
    match json_loads content with
    | none => true
    | some v =>
      !pyTruthy v ||
        (meetingRespShapeOk w &&
          (!w.tokensFileExists || (jsonShapeOkForPublisher v && calendarInsertOk w)))

/-! ### Concrete worlds and events used by witnesses and counterexamples -/

/-- Baseline world: message fetch succeeds, LLM answers `"null"`,
meeting creation answers 404, credentials stored. -/
def worldBase : World :=
  { fetchStatus := 200
    fetchText := some "Schedule a meeting with bob@x.com tomorrow at 5pm"
    llm := LLMOutcome.success "null"
    meetingStatus := 404
    meetingBody := []
    tokensFileExists := true
    calendarInsertStatus := 200
    calendarEventBody := [("htmlLink", JsonVal.str "https://calendar.example/evt")] }

/-- World in which the OpenAI call raises and is caught. -/
def worldLLMFail : World := { worldBase with llm := LLMOutcome.failure "connection error" }

/-- World in which the LLM answers non-JSON prose. -/
def worldNonJson : World :=
  { worldBase with llm := LLMOutcome.success "Sure, I will schedule that for you!" }

/-- World with no stored Google OAuth tokens and a truthy parsed value. -/
def worldNoTokens : World :=
  { worldBase with llm := LLMOutcome.success "true", tokensFileExists := false }

/-- World whose meetings API answers 200 with a `webLink`. -/
def worldMeeting200 : World :=
  { worldBase with
    meetingStatus := 200
    meetingBody := [("webLink", JsonVal.str "https://webex.example/join")] }

/-- World in which the message fetch answers 404. -/
def worldFetch404 : World := { worldBase with fetchStatus := 404 }

/-- A well-formed `messages/created` event carrying a message id. -/
def eventGood : InboundEvent :=
  { resource := some "messages", event := some "created"
    dataId := some "m1", dataRoomId := some "r1" }

/-- Same event with a non-message resource. -/
def eventWrongResource : InboundEvent := { eventGood with resource := some "memberships" }

/-! ### Claim theorems -/

/-- C2: for every inbound event whose resource is not `"messages"`, or
whose event type is not `"created"`, or whose `data.id` is absent, the
handler makes no outbound call and returns the `ok`/200 acknowledgement. -/
theorem c2_filter_no_side_effects (w : World) (e : InboundEvent)
    (h : e.resource ≠ some "messages" ∨ e.event ≠ some "created" ∨ e.dataId = none) :
    webhook w e = (Except.ok ackResponse, []) := by
  unfold webhook
  rcases h with h | h | h
  · rw [if_neg (fun hc => h hc.1)]
  · rw [if_neg (fun hc => h hc.2)]
  · by_cases hc : e.resource = some "messages" ∧ e.event = some "created"
    · rw [if_pos hc, h]
    · rw [if_neg hc]

/-- Witness for C2 at a concrete non-message event. -/
theorem c2_filter_no_side_effects_witness :
    webhook worldBase eventWrongResource = (Except.ok ackResponse, []) :=
  c2_filter_no_side_effects worldBase eventWrongResource
    (Or.inl (by simp [eventWrongResource, eventGood]))

/-- C4: `create_webex_meeting` sends the same request payload for any two
booking values: title, start and end instants and the two policy flags are
hardcoded constants, and the booking value is never consumed. -/
theorem c4_meeting_payload_constant (w : World) (b1 b2 : JsonVal) :
    (create_webex_meeting w b1).2 = (create_webex_meeting w b2).2 ∧
    (create_webex_meeting w b1).2 =
      [Call.createMeeting
        { title := "Scheduled via Webex + GPT"
          start := "2025-02-01T17:00:00Z"
          endTime := "2025-02-01T17:30:00Z"
          enabledAutoRecordMeeting := false
          allowAnyUserToBeCoHost := false }] :=
  ⟨rfl, rfl⟩

/-- C6: for every input text, `process_natural_language_input` never
raises (its result type carries no exception): on LLM success it returns
the raw content as the string-shaped result, on failure the error dict, a
distinct shape. -/
theorem c6_extractor_total (w : World) (t : String) :
    (∀ c, w.llm = LLMOutcome.success c →
      process_natural_language_input w t =
        (OpenAIResult.assistantMessage c, [Call.llmCall t])) ∧
    (∀ m, w.llm = LLMOutcome.failure m →
      process_natural_language_input w t =
        (OpenAIResult.errorDict m, [Call.llmCall t])) := by
  constructor <;> intro x h <;> simp [process_natural_language_input, h]

/-- Witness for C6: both LLM outcomes at concrete worlds and the empty
input text. -/
theorem c6_extractor_total_witness :
    process_natural_language_input worldBase "" =
      (OpenAIResult.assistantMessage "null", [Call.llmCall ""]) ∧
    process_natural_language_input worldLLMFail "" =
      (OpenAIResult.errorDict "connection error", [Call.llmCall ""]) :=
  ⟨(c6_extractor_total worldBase "").1 "null" rfl,
   (c6_extractor_total worldLLMFail "").2 "connection error" rfl⟩

/-- Once the filter passes, the trace always contains the LLM call on the
fetched message text, whatever happens downstream. -/
theorem llmCall_mem_webhook_trace (w : World) (e : InboundEvent) (mid : String)
    (hres : e.resource = some "messages") (hev : e.event = some "created")
    (hid : e.dataId = some mid) (hmid : mid ≠ "") :
    Call.llmCall (fetch_webex_message_text w mid).1 ∈ (webhook w e).2 := by
  unfold webhook
  rw [if_pos ⟨hres, hev⟩, hid]
  dsimp only
  rw [if_pos hmid]
  cases hjp : json_loads_py (process_natural_language_input w (fetch_webex_message_text w mid).1).1 with
  | error err =>
    cases err <;>
      simp [hjp, fetch_webex_message_text, process_natural_language_input] <;>
      cases w.llm <;> simp
  | ok v =>
    by_cases ht : pyTruthy v = true
    · dsimp only
      rw [if_pos ht]
      cases hm : (create_webex_meeting w v).1 with
      | error e2 =>
        simp [fetch_webex_message_text, process_natural_language_input]
        cases w.llm <;> simp
      | ok url =>
        dsimp only
        cases hc : (create_google_calendar_event w "archit.sachdeva007@gmail.com" v url).1 with
        | error e3 =>
          simp [fetch_webex_message_text, process_natural_language_input]
          cases w.llm <;> simp
        | ok u =>
          simp [fetch_webex_message_text, process_natural_language_input]
          cases w.llm <;> simp
    · dsimp only
      rw [if_neg ht]
      simp [fetch_webex_message_text, process_natural_language_input]
      cases w.llm <;> simp

/-- C7: `fetch_webex_message_text` always returns a string after exactly
one GET: the text field on a 200 response, the empty string otherwise; and
on a failed fetch the pipeline still invokes the LLM on the empty
string. -/
theorem c7_fetch_absorbs_failure (w : World) (e : InboundEvent) (mid : String) :
    (w.fetchStatus = 200 → ∀ t, w.fetchText = some t →
      fetch_webex_message_text w mid = (t, [Call.fetchMessage mid])) ∧
    (w.fetchStatus ≠ 200 →
      fetch_webex_message_text w mid = ("", [Call.fetchMessage mid])) ∧
    (e.resource = some "messages" → e.event = some "created" →
      e.dataId = some mid → mid ≠ "" → w.fetchStatus ≠ 200 →
      Call.llmCall "" ∈ (webhook w e).2) := by
  refine ⟨?_, ?_, ?_⟩
  · intro h200 t ht
    simp [fetch_webex_message_text, h200, ht]
  · intro hne
    simp [fetch_webex_message_text, hne]
  · intro hres hev hid hmid hne
    have h := llmCall_mem_webhook_trace w e mid hres hev hid hmid
    simpa [fetch_webex_message_text, hne] using h

/-- Witness for C7: a 404 fetch yields the empty string, a 200 fetch the
message text, and after the 404 the LLM is still called on `""`. -/
theorem c7_fetch_absorbs_failure_witness :
    fetch_webex_message_text worldBase "m1" =
      ("Schedule a meeting with bob@x.com tomorrow at 5pm", [Call.fetchMessage "m1"]) ∧
    fetch_webex_message_text worldFetch404 "m1" = ("", [Call.fetchMessage "m1"]) ∧
    Call.llmCall "" ∈ (webhook worldFetch404 eventGood).2 :=
  ⟨(c7_fetch_absorbs_failure worldBase eventGood "m1").1 rfl _ rfl,
   (c7_fetch_absorbs_failure worldFetch404 eventGood "m1").2.1 (by simp [worldFetch404, worldBase]),
   (c7_fetch_absorbs_failure worldFetch404 eventGood "m1").2.2 rfl rfl rfl
     (by simp) (by simp [worldFetch404, worldBase])⟩

/-- C8: `create_webex_meeting` makes exactly one POST (no retry), returns
`None` on every non-2xx status (the code in fact requires exactly 200),
and returns the join link on a 200 response carrying a `webLink`. -/
theorem c8_meeting_link_or_none (w : World) (b : JsonVal) :
    (create_webex_meeting w b).2 =
      [Call.createMeeting
        { title := "Scheduled via Webex + GPT"
          start := "2025-02-01T17:00:00Z"
          endTime := "2025-02-01T17:30:00Z"
          enabledAutoRecordMeeting := false
          allowAnyUserToBeCoHost := false }] ∧
    (¬(200 ≤ w.meetingStatus ∧ w.meetingStatus < 300) →
      (create_webex_meeting w b).1 = Except.ok none) ∧
    (∀ L : String, w.meetingStatus = 200 →
      lookupLast w.meetingBody "items" = none →
      lookupLast w.meetingBody "webLink" = some (JsonVal.str L) →
      (create_webex_meeting w b).1 = Except.ok (some (JsonVal.str L))) := by
  refine ⟨rfl, ?_, ?_⟩
  · intro h
    have hne : w.meetingStatus ≠ 200 := by
      intro he
      exact h (by rw [he]; exact ⟨le_refl 200, by norm_num⟩)
    simp [create_webex_meeting, hne]
  · intro L h200 hitems hlink
    simp [create_webex_meeting, h200, hitems, hlink]

/-- Witness for C8: a 404 response yields `None`; a 200 response with a
`webLink` yields the link. -/
theorem c8_meeting_link_or_none_witness :
    (create_webex_meeting worldBase JsonVal.null).1 = Except.ok none ∧
    (create_webex_meeting worldMeeting200 JsonVal.null).1 =
      Except.ok (some (JsonVal.str "https://webex.example/join")) :=
  ⟨(c8_meeting_link_or_none worldBase JsonVal.null).2.1 (by simp [worldBase]),
   (c8_meeting_link_or_none worldMeeting200 JsonVal.null).2.2
     "https://webex.example/join" rfl rfl rfl⟩

/-- If the LLM call succeeds but its output fails to parse, or parses to a
falsy value, the handler acknowledges and never reaches the provisioner or
the publisher. -/
theorem webhook_short_circuit (w : World) (e : InboundEvent) (c : String)
    (hllm : w.llm = LLMOutcome.success c)
    (hshort : json_loads c = none ∨ ∃ v, json_loads c = some v ∧ pyTruthy v = false) :
    (webhook w e).1 = Except.ok ackResponse ∧
    ∀ cl ∈ (webhook w e).2, cl.isCreateMeeting = false ∧ cl.isCalendarInsert = false := by
  unfold webhook
  by_cases hc : e.resource = some "messages" ∧ e.event = some "created"
  · rw [if_pos hc]
    cases hdid : e.dataId with
    | none => simp
    | some mid =>
      dsimp only
      by_cases hmid : mid ≠ ""
      · rw [if_pos hmid]
        simp only [process_natural_language_input, hllm, json_loads_py]
        rcases hshort with hparse | ⟨v, hv, ht⟩
        · rw [hparse]
          simp [fetch_webex_message_text, Call.isCreateMeeting, Call.isCalendarInsert]
        · rw [hv]
          dsimp only
          rw [if_neg (by simp [ht])]
          simp [fetch_webex_message_text, Call.isCreateMeeting, Call.isCalendarInsert]
      · rw [if_neg hmid]
        simp
  · rw [if_neg hc]
    simp

/-- C3: whenever the extractor succeeds with a string that is not valid
JSON, the parse fails (the `json.loads` embedding returns `none`), the
handler acknowledges, and neither `create_webex_meeting` nor
`create_google_calendar_event` is ever called. -/
theorem c3_parse_failure_short_circuits (w : World) (e : InboundEvent) (c : String)
    (hllm : w.llm = LLMOutcome.success c) (hparse : json_loads c = none) :
    (webhook w e).1 = Except.ok ackResponse ∧
    ∀ cl ∈ (webhook w e).2, cl.isCreateMeeting = false ∧ cl.isCalendarInsert = false :=
  webhook_short_circuit w e c hllm (Or.inl hparse)

/-- Witness for C3: the LLM answers conversational prose, which does not
parse as JSON. -/
theorem c3_parse_failure_short_circuits_witness :
    (webhook worldNonJson eventGood).1 = Except.ok ackResponse ∧
    ∀ cl ∈ (webhook worldNonJson eventGood).2,
      cl.isCreateMeeting = false ∧ cl.isCalendarInsert = false :=
  c3_parse_failure_short_circuits worldNonJson eventGood
    "Sure, I will schedule that for you!" rfl rfl

/-- C10: whenever the extractor succeeds with a string that parses as a
falsy JSON value (`null`, `false`, `0`, `""`, `[]`, `\x7b\x7d`), the
handler short-circuits exactly as on a parse failure: no provisioner or
publisher call, and the acknowledgement is still returned. -/
theorem c10_falsy_parse_short_circuits (w : World) (e : InboundEvent)
    (c : String) (v : JsonVal)
    (hllm : w.llm = LLMOutcome.success c) (hparse : json_loads c = some v)
    (hfalsy : pyTruthy v = false) :
    (webhook w e).1 = Except.ok ackResponse ∧
    ∀ cl ∈ (webhook w e).2, cl.isCreateMeeting = false ∧ cl.isCalendarInsert = false :=
  webhook_short_circuit w e c hllm (Or.inr ⟨v, hparse, hfalsy⟩)

/-- Witness for C10: the LLM answers `"null"`, which parses successfully
to the falsy value `None`. -/
theorem c10_falsy_parse_short_circuits_witness :
    (webhook worldBase eventGood).1 = Except.ok ackResponse ∧
    ∀ cl ∈ (webhook worldBase eventGood).2,
      cl.isCreateMeeting = false ∧ cl.isCalendarInsert = false :=
  c10_falsy_parse_short_circuits worldBase eventGood "null" JsonVal.null rfl rfl rfl

/-- When the meetings response body has no `items` key,
`create_webex_meeting` never raises. -/
theorem create_webex_meeting_ok_of_items_none (w : World) (b : JsonVal)
    (hitems : lookupLast w.meetingBody "items" = none) :
    ∃ u, (create_webex_meeting w b).1 = Except.ok u := by
  by_cases h200 : w.meetingStatus = 200
  · exact ⟨lookupLast w.meetingBody "webLink",
      by simp [create_webex_meeting, h200, hitems]⟩
  · exact ⟨none, by simp [create_webex_meeting, h200]⟩

/-- C5: with no stored Google OAuth token file, the Calendar Publisher is
a hard stop: it returns without any call and without raising, for every
input; in the full pipeline the Meeting Provisioner has still run, the
handler still acknowledges, and no calendar insert ever happens (so the
join link is not persisted anywhere). -/
theorem c5_missing_credentials_hard_stop (w : World) (e : InboundEvent)
    (mid c : String) (v : JsonVal)
    (htok : w.tokensFileExists = false)
    (hres : e.resource = some "messages") (hev : e.event = some "created")
    (hid : e.dataId = some mid) (hmid : mid ≠ "")
    (hllm : w.llm = LLMOutcome.success c)
    (hparse : json_loads c = some v) (htruthy : pyTruthy v = true)
    (hitems : lookupLast w.meetingBody "items" = none) :
    (∀ host b link, create_google_calendar_event w host b link = (Except.ok (), [])) ∧
    (webhook w e).1 = Except.ok ackResponse ∧
    (∃ p, Call.createMeeting p ∈ (webhook w e).2) ∧
    ∀ cl ∈ (webhook w e).2, cl.isCalendarInsert = false := by
  have hcal : ∀ host b link,
      create_google_calendar_event w host b link = (Except.ok (), []) := by
    intro host b link
    simp [create_google_calendar_event, htok]
  refine ⟨hcal, ?_⟩
  unfold webhook
  rw [if_pos ⟨hres, hev⟩, hid]
  dsimp only
  rw [if_pos hmid]
  simp only [process_natural_language_input, hllm, json_loads_py]
  rw [hparse]
  dsimp only
  rw [if_pos htruthy]
  obtain ⟨u, hu⟩ := create_webex_meeting_ok_of_items_none w v hitems
  rw [hu]
  dsimp only
  rw [hcal]
  refine ⟨rfl, ?_, ?_⟩
  · exact ⟨{ title := "Scheduled via Webex + GPT"
             start := "2025-02-01T17:00:00Z"
             endTime := "2025-02-01T17:30:00Z"
             enabledAutoRecordMeeting := false
             allowAnyUserToBeCoHost := false },
      by simp [fetch_webex_message_text, create_webex_meeting]⟩
  · intro cl hcl
    simp [fetch_webex_message_text, create_webex_meeting] at hcl
    rcases hcl with h | h | h <;> simp [h, Call.isCalendarInsert]

/-- Witness for C5: no token file, LLM answers `"true"` (truthy), meeting
API answers 404; the provisioner call is in the trace, no calendar insert
is, and the handler acknowledges. -/
theorem c5_missing_credentials_hard_stop_witness :
    (∀ host b link, create_google_calendar_event worldNoTokens host b link =
      (Except.ok (), [])) ∧
    (webhook worldNoTokens eventGood).1 = Except.ok ackResponse ∧
    (∃ p, Call.createMeeting p ∈ (webhook worldNoTokens eventGood).2) ∧
    ∀ cl ∈ (webhook worldNoTokens eventGood).2, cl.isCalendarInsert = false :=
  c5_missing_credentials_hard_stop worldNoTokens eventGood "m1" "true"
    (JsonVal.bool true) rfl rfl rfl rfl (by decide) rfl rfl rfl rfl

/-- C9 (amended): for every booking dict whose `attendees` entry is a
list, the Calendar Publisher sends exactly one event-insert request whose
attendees are the `("email", e)` objects mapped 1:1, in order, from that
list, whose location is the join link value as-is (`none` when the link is
absent — no fallback label exists in the code), with notifications
enabled.  The request is sent whatever the insert response status turns
out to be, so the statement is about the call trace. -/
theorem c9_event_body_amended (w : World) (host : String) (link : Option JsonVal)
    (kvs : List (String × JsonVal)) (es : List JsonVal)
    (htok : w.tokensFileExists = true)
    (hatt : (lookupLast kvs "attendees").getD (JsonVal.arr []) = JsonVal.arr es) :
    (create_google_calendar_event w host (JsonVal.obj kvs) link).2 =
      [Call.calendarInsert host
        { summary := "Meeting from GPT + Webex"
          location := link
          startDateTime := "2025-02-01T17:00:00-05:00"
          startTimeZone := "Europe/London"
          endDateTime := "2025-02-01T17:30:00-05:00"
          endTimeZone := "Europe/London"
          attendees := es.map (fun a => JsonVal.obj [("email", a)])
          organizerEmail := host } true] := by
  simp [create_google_calendar_event, htok, pyGet, hatt, pyIter]

/-- Witness for C9 (amended): one attendee, join link present. -/
theorem c9_event_body_amended_witness :
    (create_google_calendar_event worldBase "archit.sachdeva007@gmail.com"
      (JsonVal.obj [("attendees", JsonVal.arr [JsonVal.str "bob@x.com"]),
                    ("date", JsonVal.str "tomorrow"),
                    ("time", JsonVal.str "5pm")])
      (some (JsonVal.str "https://webex.example/join"))).2 =
      [Call.calendarInsert "archit.sachdeva007@gmail.com"
        { summary := "Meeting from GPT + Webex"
          location := some (JsonVal.str "https://webex.example/join")
          startDateTime := "2025-02-01T17:00:00-05:00"
          startTimeZone := "Europe/London"
          endDateTime := "2025-02-01T17:30:00-05:00"
          endTimeZone := "Europe/London"
          attendees := [JsonVal.obj [("email", JsonVal.str "bob@x.com")]]
          organizerEmail := "archit.sachdeva007@gmail.com" } true] := by
  have h := c9_event_body_amended worldBase "archit.sachdeva007@gmail.com"
    (some (JsonVal.str "https://webex.example/join"))
    [("attendees", JsonVal.arr [JsonVal.str "bob@x.com"]),
     ("date", JsonVal.str "tomorrow"),
     ("time", JsonVal.str "5pm")]
    [JsonVal.str "bob@x.com"] rfl rfl
  simpa using h

/-- C9 counterexample: when the join link is absent, the inserted event
body records location `none` (the Python value `None`); there is no
fallback label, contrary to the claim. -/
theorem c9_no_fallback_label_counterexample :
    insertedLocations (create_google_calendar_event worldBase
      "archit.sachdeva007@gmail.com"
      (JsonVal.obj [("attendees", JsonVal.arr [JsonVal.str "bob@x.com"]),
                    ("date", JsonVal.str "tomorrow"),
                    ("time", JsonVal.str "5pm")]) none).2 = [none] ∧
    ¬ ∃ s : String,
      insertedLocations (create_google_calendar_event worldBase
        "archit.sachdeva007@gmail.com"
        (JsonVal.obj [("attendees", JsonVal.arr [JsonVal.str "bob@x.com"]),
                      ("date", JsonVal.str "tomorrow"),
                      ("time", JsonVal.str "5pm")]) none).2 = [some (JsonVal.str s)] := by
  constructor
  · rfl
  · rintro ⟨s, hs⟩
    rw [show insertedLocations (create_google_calendar_event worldBase
      "archit.sachdeva007@gmail.com"
      (JsonVal.obj [("attendees", JsonVal.arr [JsonVal.str "bob@x.com"]),
                    ("date", JsonVal.str "tomorrow"),
                    ("time", JsonVal.str "5pm")]) none).2 = [none] from rfl] at hs
    simp at hs

/-- A well-shaped meetings response (per `meetingRespShapeOk`) means
`create_webex_meeting` never raises. -/
theorem create_webex_meeting_ok_of_shape (w : World) (b : JsonVal)
    (h : meetingRespShapeOk w = true) :
    ∃ u, (create_webex_meeting w b).1 = Except.ok u := by
  by_cases h200 : w.meetingStatus = 200
  · simp only [meetingRespShapeOk, h200, if_true] at h
    cases hit : lookupLast w.meetingBody "items" with
    | none =>
      exact ⟨lookupLast w.meetingBody "webLink",
        by simp [create_webex_meeting, h200, hit]⟩
    | some items =>
      rw [hit] at h
      cases items with
      | arr l =>
        cases l with
        | nil => simp at h
        | cons hd tl =>
          cases hd with
          | obj kvs =>
            exact ⟨lookupLast kvs "webLink",
              by simp [create_webex_meeting, h200, hit, pyIndex0, pyGet]⟩
          | null => simp at h
          | bool x => simp at h
          | num q => simp at h
          | str s => simp at h
          | arr l2 => simp at h
          | nanV => simp at h
          | infV x => simp at h
      | null => simp at h
      | bool x => simp at h
      | num q => simp at h
      | str s => simp at h
      | obj kvs2 => simp at h
      | nanV => simp at h
      | infV x => simp at h
  · exact ⟨none, by simp [create_webex_meeting, h200]⟩

/-- A publisher-consumable booking value (per `jsonShapeOkForPublisher`)
together with an insert response status that `execute()` accepts (per
`calendarInsertOk`) means `create_google_calendar_event` never raises. -/
theorem create_google_calendar_event_ok_of_shape (w : World) (host : String)
    (b : JsonVal) (link : Option JsonVal)
    (h : jsonShapeOkForPublisher b = true)
    (hins : calendarInsertOk w = true) :
    (create_google_calendar_event w host b link).1 = Except.ok () := by
  have hlt : ¬ 300 ≤ w.calendarInsertStatus := by
    simp only [calendarInsertOk, decide_eq_true_eq] at hins
    omega
  by_cases htok : w.tokensFileExists = false
  · simp [create_google_calendar_event, htok]
  · have htok2 : w.tokensFileExists = true := by
      cases hw : w.tokensFileExists
      · exact absurd hw htok
      · rfl
    cases b with
    | obj kvs =>
      simp only [jsonShapeOkForPublisher] at h
      cases hav : (lookupLast kvs "attendees").getD (JsonVal.arr []) with
      | arr es => simp [create_google_calendar_event, htok2, pyGet, hav, pyIter, hlt]
      | str s => simp [create_google_calendar_event, htok2, pyGet, hav, pyIter, hlt]
      | obj kvs2 => simp [create_google_calendar_event, htok2, pyGet, hav, pyIter, hlt]
      | null => rw [hav] at h; simp at h
      | bool x => rw [hav] at h; simp at h
      | num q => rw [hav] at h; simp at h
      | nanV => rw [hav] at h; simp at h
      | infV x => rw [hav] at h; simp at h
    | null => simp [jsonShapeOkForPublisher] at h
    | bool x => simp [jsonShapeOkForPublisher] at h
    | num q => simp [jsonShapeOkForPublisher] at h
    | str s => simp [jsonShapeOkForPublisher] at h
    | arr l => simp [jsonShapeOkForPublisher] at h
    | nanV => simp [jsonShapeOkForPublisher] at h
    | infV x => simp [jsonShapeOkForPublisher] at h

/-- C1 (amended): the handler returns the `ok`/200 acknowledgement for
every event that fails the filter, and otherwise whenever the extractor
succeeds and the pipeline avoids the uncaught-exception paths (output does
not parse, or parses falsy, or parses to a publisher-consumable dict with
a well-shaped meetings response and — when the token file exists — a
calendar insert that `execute()` does not turn into an `HttpError`) — the
`ackSafe` condition.  It is NOT unconditional: an extractor failure
propagates an uncaught `TypeError` (see the counterexample), and a
calendar-insert failure likewise escapes as an uncaught `HttpError`. -/
theorem c1_ack_on_safe_paths (w : World) (e : InboundEvent)
    (h : ackSafe w = true) :
    (webhook w e).1 = Except.ok ackResponse := by
  unfold webhook
  by_cases hc : e.resource = some "messages" ∧ e.event = some "created"
  · rw [if_pos hc]
    cases hdid : e.dataId with
    | none => rfl
    | some mid =>
      dsimp only
      by_cases hmid : mid ≠ ""
      · rw [if_pos hmid]
        cases hllm : w.llm with
        | failure m => simp [ackSafe, hllm] at h
        | success content =>
          simp only [process_natural_language_input, hllm, json_loads_py]
          cases hj : json_loads content with
          | none => rfl
          | some v =>
            dsimp only
            simp only [ackSafe, hllm, hj] at h
            by_cases ht : pyTruthy v = true
            · rw [if_pos ht]
              rw [ht] at h
              simp only [Bool.not_true, Bool.false_or, Bool.and_eq_true,
                Bool.or_eq_true, Bool.not_eq_true'] at h
              obtain ⟨hm, hp⟩ := h
              obtain ⟨u, hu⟩ := create_webex_meeting_ok_of_shape w v hm
              rw [hu]
              dsimp only
              have hcalok : (create_google_calendar_event w
                  "archit.sachdeva007@gmail.com" v u).1 = Except.ok () := by
                rcases hp with hp | ⟨hp, hins⟩
                · simp [create_google_calendar_event, hp]
                · exact create_google_calendar_event_ok_of_shape w _ v u hp hins
              rw [hcalok]
            · rw [if_neg ht]
      · rw [if_neg hmid]
  · rw [if_neg hc]

/-- Witness for C1 (amended): the baseline world satisfies `ackSafe` and
the handler acknowledges. -/
theorem c1_ack_on_safe_paths_witness :
    ackSafe worldBase = true ∧
    (webhook worldBase eventGood).1 = Except.ok ackResponse :=
  ⟨rfl, c1_ack_on_safe_paths worldBase eventGood rfl⟩

/-- C1 counterexample: when the OpenAI call fails, the extractor returns
its error dict, `json.loads` on that dict raises `TypeError`, nothing
catches it, and the handler does NOT return the `ok`/200 acknowledgement
(Flask turns the escaped exception into HTTP 500). -/
theorem c1_extractor_failure_counterexample :
    (webhook worldLLMFail eventGood).1 = Except.error PyErr.typeError ∧
    (webhook worldLLMFail eventGood).1 ≠ Except.ok ackResponse := by
  constructor
  · rfl
  · intro hcontra
    rw [show (webhook worldLLMFail eventGood).1 = Except.error PyErr.typeError
      from rfl] at hcontra
    exact Except.noConfusion hcontra
